import Mathlib

/-!
Verification of the rus-ts Option/Result combinator library.

The library is a pair of closed two-variant algebraic types with a fluent
combinator API mirroring Rust's `Option<T>` and `Result<T, E>`:

- the `Some` and `None` variant classes each store at most one payload in a
  read-only field `value` and answer `isSome`/`isNone`;
- the `Ok` and `Err` variant classes store their payload in a read-only field
  `value` and answer `isOk`/`isErr`;
- `OptionImpl` and `ResultImpl` supply the shared combinators; each combinator
  body branches on the discriminator and reads the receiver's `value` field.

The embedding below translates the two sum types as Lean inductives and every
combinator body as a match on the variant, which is exactly the discriminator
branch of the source (the discriminator narrows the receiver so that `value`
may be read).  Callback parameters that the source takes as zero-argument
closures are embedded as functions out of `Unit`, so that "the callback is not
invoked" becomes "the result does not depend on the callback".
-/

set_option autoImplicit false

namespace RusTs

/-- The Option type: `Some (value)` or `None`, a closed two-case sum
(`export type Option<T> = None | Some<T>`). -/
inductive Option (T : Type) where
  | None : Option T
  | Some (value : T) : Option T
deriving DecidableEq, Repr

/-- The Result type: `Ok (value)` or `Err (value)`, a closed two-case sum
(`export type Result<T, E> = Ok<T> | Err<E>`). -/
inductive Result (T E : Type) where
  | Ok (value : T) : Result T E
  | Err (value : E) : Result T E
deriving DecidableEq, Repr

namespace Option

/-- `Some.isSome` returns `true`; `None.isSome` returns `false`. -/
def isSome {T : Type} : Option T → Bool
  | .Some _ => true
  | .None => false

/-- `Some.isNone` returns `false`; `None.isNone` returns `true`. -/
def isNone {T : Type} : Option T → Bool
  | .Some _ => false
  | .None => true

/-- `OptionImpl.unwrapOr`: `this.isSome() ? this.value : def`. -/
def unwrapOr {T : Type} (this_ : Option T) (defv : T) : T :=
  match this_ with
  | .Some value => value
  | .None => defv

/-- `OptionImpl.unwrapOrElse`: `this.isSome() ? this.value : f()`. -/
def unwrapOrElse {T : Type} (this_ : Option T) (f : Unit → T) : T :=
  match this_ with
  | .Some value => value
  | .None => f ()

/-- `OptionImpl.map`: `this.isSome() ? Some(f(this.value)) : None`. -/
def map {T U : Type} (this_ : Option T) (f : T → U) : Option U :=
  match this_ with
  | .Some value => .Some (f value)
  | .None => .None

/-- `OptionImpl.mapOr`: `this.isSome() ? f(this.value) : def`. -/
def mapOr {T U : Type} (this_ : Option T) (defv : U) (f : T → U) : U :=
  match this_ with
  | .Some value => f value
  | .None => defv

/-- `OptionImpl.mapOrElse`: `this.isSome() ? f(this.value) : def()`. -/
def mapOrElse {T U : Type} (this_ : Option T) (defFn : Unit → U) (f : T → U) : U :=
  match this_ with
  | .Some value => f value
  | .None => defFn ()

/-- `OptionImpl.okOr`: `this.isSome() ? Ok(this.value) : Err(err)`. -/
def okOr {T E : Type} (this_ : Option T) (err : E) : Result T E :=
  match this_ with
  | .Some value => .Ok value
  | .None => .Err err

/-- `OptionImpl.okOrElse`: `this.isSome() ? Ok(this.value) : Err(err())`. -/
def okOrElse {T E : Type} (this_ : Option T) (err : Unit → E) : Result T E :=
  match this_ with
  | .Some value => .Ok value
  | .None => .Err (err ())

/-- `OptionImpl.and`: `this.isSome() ? optb : this`. -/
def and {T U : Type} (this_ : Option T) (optb : Option U) : Option U :=
  match this_ with
  | .Some _ => optb
  | .None => .None

/-- `OptionImpl.andThen`: `this.isSome() ? f(this.value) : this`. -/
def andThen {T U : Type} (this_ : Option T) (f : T → Option U) : Option U :=
  match this_ with
  | .Some value => f value
  | .None => .None

/-- `OptionImpl.filter`: `this.isSome() && predicate(this.value) ? this : None`. -/
def filter {T : Type} (this_ : Option T) (predicate : T → Bool) : Option T :=
  match this_ with
  | .Some value => if predicate value then .Some value else .None
  | .None => .None

/-- `OptionImpl.or`: `this.isSome() ? this : optb`. -/
def or {T : Type} (this_ : Option T) (optb : Option T) : Option T :=
  match this_ with
  | .Some value => .Some value
  | .None => optb

/-- `OptionImpl.orElse`: `this.isSome() ? this : f()`. -/
def orElse {T : Type} (this_ : Option T) (f : Unit → Option T) : Option T :=
  match this_ with
  | .Some value => .Some value
  | .None => f ()

/-- `OptionImpl.xor`: returns `this` if `this.isSome() && optb.isNone()`,
returns `optb` if `this.isNone() && optb.isSome()`, else `None`. -/
def xor {T : Type} (this_ : Option T) (optb : Option T) : Option T :=
  if this_.isSome ∧ optb.isNone then this_
  else if this_.isNone ∧ optb.isSome then optb
  else .None

/-- `OptionImpl.zip`: `this.isSome() && other.isSome() ?
Some([this.value, other.value]) : None`. -/
def zip {T U : Type} (this_ : Option T) (other : Option U) : Option (T × U) :=
  match this_, other with
  | .Some value, .Some otherValue => .Some (value, otherValue)
  | _, _ => .None

/-- `OptionImpl.transpose`: if `this.isSome()` then
`this.value.isOk() ? Ok(Some(this.value.value)) : Err(this.value.value)`,
else `Ok(None)`. -/
def transpose {T E : Type} (this_ : Option (Result T E)) : Result (Option T) E :=
  match this_ with
  | .Some (.Ok value) => .Ok (.Some value)
  | .Some (.Err value) => .Err value
  | .None => .Ok .None

/-- `OptionImpl.flatten`: `this.isSome() ? this.value : this`. -/
def flatten {T : Type} (this_ : Option (Option T)) : Option T :=
  match this_ with
  | .Some value => value
  | .None => .None

/-!
Explicit-state translations of combinator calls, for the frame property.

A method call on a receiver object is modelled as a function from the
receiver's state (its variant and payload) to the pair of the receiver's state
after the call and the call's return value.  Each body below is the source
body of the corresponding `OptionImpl` method: the source reads
`this.isSome()` and `this.value` and performs no assignment to the receiver
or to its `value` field (the field is declared `readonly`), so in each branch
the post-call receiver state is rebuilt from the same unmodified variant and
payload that were read.
-/

/-- Explicit-state call of `OptionImpl.filter`. -/
def filterCall {T : Type} (this_ : Option T) (predicate : T → Bool) :
    Option T × Option T :=
  match this_ with
  | .Some value => (.Some value, if predicate value then .Some value else .None)
  | .None => (.None, .None)

/-- Explicit-state call of `OptionImpl.or`. -/
def orCall {T : Type} (this_ : Option T) (optb : Option T) :
    Option T × Option T :=
  match this_ with
  | .Some value => (.Some value, .Some value)
  | .None => (.None, optb)

/-- Explicit-state call of `OptionImpl.map`. -/
def mapCall {T U : Type} (this_ : Option T) (f : T → U) :
    Option T × Option U :=
  match this_ with
  | .Some value => (.Some value, .Some (f value))
  | .None => (.None, .None)

/-- Explicit-state call of `OptionImpl.andThen`. -/
def andThenCall {T U : Type} (this_ : Option T) (f : T → Option U) :
    Option T × Option U :=
  match this_ with
  | .Some value => (.Some value, f value)
  | .None => (.None, .None)

/-- Explicit-state call of the variant-class `isSome` discriminator. -/
def isSomeCall {T : Type} (this_ : Option T) : Option T × Bool :=
  match this_ with
  | .Some value => (.Some value, true)
  | .None => (.None, false)

/-- Explicit-state call of the variant-class `isNone` discriminator. -/
def isNoneCall {T : Type} (this_ : Option T) : Option T × Bool :=
  match this_ with
  | .Some value => (.Some value, false)
  | .None => (.None, true)

/-- Explicit-state call of `OptionImpl.unwrapOr`. -/
def unwrapOrCall {T : Type} (this_ : Option T) (defv : T) : Option T × T :=
  match this_ with
  | .Some value => (.Some value, value)
  | .None => (.None, defv)

/-- Explicit-state call of `OptionImpl.unwrapOrElse`. -/
def unwrapOrElseCall {T : Type} (this_ : Option T) (f : Unit → T) :
    Option T × T :=
  match this_ with
  | .Some value => (.Some value, value)
  | .None => (.None, f ())

/-- Explicit-state call of `OptionImpl.mapOr`. -/
def mapOrCall {T U : Type} (this_ : Option T) (defv : U) (f : T → U) :
    Option T × U :=
  match this_ with
  | .Some value => (.Some value, f value)
  | .None => (.None, defv)

/-- Explicit-state call of `OptionImpl.mapOrElse`. -/
def mapOrElseCall {T U : Type} (this_ : Option T) (defFn : Unit → U)
    (f : T → U) : Option T × U :=
  match this_ with
  | .Some value => (.Some value, f value)
  | .None => (.None, defFn ())

/-- Explicit-state call of `OptionImpl.okOr`. -/
def okOrCall {T E : Type} (this_ : Option T) (err : E) :
    Option T × Result T E :=
  match this_ with
  | .Some value => (.Some value, .Ok value)
  | .None => (.None, .Err err)

/-- Explicit-state call of `OptionImpl.okOrElse`. -/
def okOrElseCall {T E : Type} (this_ : Option T) (err : Unit → E) :
    Option T × Result T E :=
  match this_ with
  | .Some value => (.Some value, .Ok value)
  | .None => (.None, .Err (err ()))

/-- Explicit-state call of `OptionImpl.and`. -/
def andCall {T U : Type} (this_ : Option T) (optb : Option U) :
    Option T × Option U :=
  match this_ with
  | .Some value => (.Some value, optb)
  | .None => (.None, .None)

/-- Explicit-state call of `OptionImpl.orElse`. -/
def orElseCall {T : Type} (this_ : Option T) (f : Unit → Option T) :
    Option T × Option T :=
  match this_ with
  | .Some value => (.Some value, .Some value)
  | .None => (.None, f ())

/-- Explicit-state call of `OptionImpl.xor`: the source branches on
`this.isSome()`/`this.isNone()` and returns `this`, `optb` or `None` without
any assignment, so the receiver is returned unchanged in every branch. -/
def xorCall {T : Type} (this_ : Option T) (optb : Option T) :
    Option T × Option T :=
  if this_.isSome ∧ optb.isNone then (this_, this_)
  else if this_.isNone ∧ optb.isSome then (this_, optb)
  else (this_, .None)

/-- Explicit-state call of `OptionImpl.zip`. -/
def zipCall {T U : Type} (this_ : Option T) (other : Option U) :
    Option T × Option (T × U) :=
  match this_, other with
  | .Some value, .Some otherValue => (.Some value, .Some (value, otherValue))
  | .Some value, .None => (.Some value, .None)
  | .None, _ => (.None, .None)

/-- Explicit-state call of `OptionImpl.transpose`. -/
def transposeCall {T E : Type} (this_ : Option (Result T E)) :
    Option (Result T E) × Result (Option T) E :=
  match this_ with
  | .Some (.Ok value) => (.Some (.Ok value), .Ok (.Some value))
  | .Some (.Err value) => (.Some (.Err value), .Err value)
  | .None => (.None, .Ok .None)

/-- Explicit-state call of `OptionImpl.flatten`. -/
def flattenCall {T : Type} (this_ : Option (Option T)) :
    Option (Option T) × Option T :=
  match this_ with
  | .Some value => (.Some value, value)
  | .None => (.None, .None)

end Option

namespace Result

/-- `Ok.isOk` returns `true`; `Err.isOk` returns `false`. -/
def isOk {T E : Type} : Result T E → Bool
  | .Ok _ => true
  | .Err _ => false

/-- `Ok.isErr` returns `false`; `Err.isErr` returns `true`. -/
def isErr {T E : Type} : Result T E → Bool
  | .Ok _ => false
  | .Err _ => true

/-- `ResultImpl.ok`: `this.isOk() ? Some(this.value) : None`. -/
def ok {T E : Type} (this_ : Result T E) : Option T :=
  match this_ with
  | .Ok value => .Some value
  | .Err _ => .None

/-- `ResultImpl.err`: `this.isOk() ? None : Some(this.value)`. -/
def err {T E : Type} (this_ : Result T E) : Option E :=
  match this_ with
  | .Ok _ => .None
  | .Err value => .Some value

/-- `ResultImpl.map`: `this.isOk() ? Ok(op(this.value)) : this`. -/
def map {T E U : Type} (this_ : Result T E) (op : T → U) : Result U E :=
  match this_ with
  | .Ok value => .Ok (op value)
  | .Err value => .Err value

/-- `ResultImpl.mapOr`: `this.isOk() ? f(this.value) : def`. -/
def mapOr {T E U : Type} (this_ : Result T E) (defv : U) (f : T → U) : U :=
  match this_ with
  | .Ok value => f value
  | .Err _ => defv

/-- `ResultImpl.mapOrElse`: `this.isOk() ? f(this.value) : def(this.value)` —
the default callback receives the contained error. -/
def mapOrElse {T E U : Type} (this_ : Result T E) (defFn : E → U) (f : T → U) : U :=
  match this_ with
  | .Ok value => f value
  | .Err value => defFn value

/-- `ResultImpl.mapErr`: `this.isOk() ? this : Err(op(this.value))`. -/
def mapErr {T E F : Type} (this_ : Result T E) (op : E → F) : Result T F :=
  match this_ with
  | .Ok value => .Ok value
  | .Err value => .Err (op value)

/-- `ResultImpl.and`: `this.isOk() ? res : this`. -/
def and {T E U : Type} (this_ : Result T E) (res : Result U E) : Result U E :=
  match this_ with
  | .Ok _ => res
  | .Err value => .Err value

/-- `ResultImpl.andThen`: `this.isOk() ? op(this.value) : this`. -/
def andThen {T E U : Type} (this_ : Result T E) (op : T → Result U E) :
    Result U E :=
  match this_ with
  | .Ok value => op value
  | .Err value => .Err value

/-- `ResultImpl.or`: `this.isOk() ? this : res`. -/
def or {T E F : Type} (this_ : Result T E) (res : Result T F) : Result T F :=
  match this_ with
  | .Ok value => .Ok value
  | .Err _ => res

/-- `ResultImpl.orElse`: `this.isOk() ? this : op(this.value)` — the callback
receives the contained error. -/
def orElse {T E F : Type} (this_ : Result T E) (op : E → Result T F) :
    Result T F :=
  match this_ with
  | .Ok value => .Ok value
  | .Err value => op value

/-- `ResultImpl.unwrapOr`: `this.isOk() ? this.value : def`. -/
def unwrapOr {T E : Type} (this_ : Result T E) (defv : T) : T :=
  match this_ with
  | .Ok value => value
  | .Err _ => defv

/-- `ResultImpl.unwrapOrElse`: `this.isOk() ? this.value : op(this.value)` —
the callback receives the contained error. -/
def unwrapOrElse {T E : Type} (this_ : Result T E) (op : E → T) : T :=
  match this_ with
  | .Ok value => value
  | .Err value => op value

/-- `ResultImpl.transpose`: if `this.isOk()` then
`this.value.isSome() ? Some(Ok(this.value.value)) : None`,
else `Some(Err(this.value))`. -/
def transpose {T E : Type} (this_ : Result (Option T) E) :
    Option (Result T E) :=
  match this_ with
  | .Ok (.Some value) => .Some (.Ok value)
  | .Ok .None => .None
  | .Err value => .Some (.Err value)

/-!
Explicit-state translations of `ResultImpl` method calls, exactly as for
`OptionImpl` above: the receiver state goes in, and the pair of the receiver
state after the call and the return value comes out.  Each source body reads
`this.isOk()` and the `readonly` field `this.value` and performs no
assignment, so every branch rebuilds the receiver from the unmodified variant
and payload that were read.
-/

/-- Explicit-state call of the variant-class `isOk` discriminator. -/
def isOkCall {T E : Type} (this_ : Result T E) : Result T E × Bool :=
  match this_ with
  | .Ok value => (.Ok value, true)
  | .Err value => (.Err value, false)

/-- Explicit-state call of the variant-class `isErr` discriminator. -/
def isErrCall {T E : Type} (this_ : Result T E) : Result T E × Bool :=
  match this_ with
  | .Ok value => (.Ok value, false)
  | .Err value => (.Err value, true)

/-- Explicit-state call of `ResultImpl.ok`. -/
def okCall {T E : Type} (this_ : Result T E) : Result T E × Option T :=
  match this_ with
  | .Ok value => (.Ok value, .Some value)
  | .Err value => (.Err value, .None)

/-- Explicit-state call of `ResultImpl.err`. -/
def errCall {T E : Type} (this_ : Result T E) : Result T E × Option E :=
  match this_ with
  | .Ok value => (.Ok value, .None)
  | .Err value => (.Err value, .Some value)

/-- Explicit-state call of `ResultImpl.map`. -/
def mapCall {T E U : Type} (this_ : Result T E) (op : T → U) :
    Result T E × Result U E :=
  match this_ with
  | .Ok value => (.Ok value, .Ok (op value))
  | .Err value => (.Err value, .Err value)

/-- Explicit-state call of `ResultImpl.mapOr`. -/
def mapOrCall {T E U : Type} (this_ : Result T E) (defv : U) (f : T → U) :
    Result T E × U :=
  match this_ with
  | .Ok value => (.Ok value, f value)
  | .Err value => (.Err value, defv)

/-- Explicit-state call of `ResultImpl.mapOrElse`. -/
def mapOrElseCall {T E U : Type} (this_ : Result T E) (defFn : E → U)
    (f : T → U) : Result T E × U :=
  match this_ with
  | .Ok value => (.Ok value, f value)
  | .Err value => (.Err value, defFn value)

/-- Explicit-state call of `ResultImpl.mapErr`. -/
def mapErrCall {T E F : Type} (this_ : Result T E) (op : E → F) :
    Result T E × Result T F :=
  match this_ with
  | .Ok value => (.Ok value, .Ok value)
  | .Err value => (.Err value, .Err (op value))

/-- Explicit-state call of `ResultImpl.and`. -/
def andCall {T E U : Type} (this_ : Result T E) (res : Result U E) :
    Result T E × Result U E :=
  match this_ with
  | .Ok value => (.Ok value, res)
  | .Err value => (.Err value, .Err value)

/-- Explicit-state call of `ResultImpl.andThen`. -/
def andThenCall {T E U : Type} (this_ : Result T E) (op : T → Result U E) :
    Result T E × Result U E :=
  match this_ with
  | .Ok value => (.Ok value, op value)
  | .Err value => (.Err value, .Err value)

/-- Explicit-state call of `ResultImpl.or`. -/
def orCall {T E F : Type} (this_ : Result T E) (res : Result T F) :
    Result T E × Result T F :=
  match this_ with
  | .Ok value => (.Ok value, .Ok value)
  | .Err value => (.Err value, res)

/-- Explicit-state call of `ResultImpl.orElse`. -/
def orElseCall {T E F : Type} (this_ : Result T E) (op : E → Result T F) :
    Result T E × Result T F :=
  match this_ with
  | .Ok value => (.Ok value, .Ok value)
  | .Err value => (.Err value, op value)

/-- Explicit-state call of `ResultImpl.unwrapOr`. -/
def unwrapOrCall {T E : Type} (this_ : Result T E) (defv : T) :
    Result T E × T :=
  match this_ with
  | .Ok value => (.Ok value, value)
  | .Err value => (.Err value, defv)

/-- Explicit-state call of `ResultImpl.unwrapOrElse`. -/
def unwrapOrElseCall {T E : Type} (this_ : Result T E) (op : E → T) :
    Result T E × T :=
  match this_ with
  | .Ok value => (.Ok value, value)
  | .Err value => (.Err value, op value)

/-- Explicit-state call of `ResultImpl.transpose`. -/
def transposeCall {T E : Type} (this_ : Result (Option T) E) :
    Result (Option T) E × Option (Result T E) :=
  match this_ with
  | .Ok (.Some value) => (.Ok (.Some value), .Some (.Ok value))
  | .Ok .None => (.Ok .None, .None)
  | .Err value => (.Err value, .Some (.Err value))

end Result

/-!
Claim theorems.
-/

/-- Claim C1.  Transpose round-trip: for every `Option (Result T E)` value
`x`, `Result.transpose (Option.transpose x) = x`; concretely
`Option.transpose` maps `None` to `Ok None`, `Some (Ok v)` to `Ok (Some v)`
and `Some (Err e)` to `Err e`, and `Result.transpose` maps `Ok (Some 5)` to
`Some (Ok 5)`, `Ok None` to `None` and `Err e` to `Some (Err e)`. -/
theorem transpose_roundtrip {T E : Type} (x : Option (Result T E))
    (v : T) (e : E) :
    Result.transpose (Option.transpose x) = x ∧
    Option.transpose (.None : Option (Result T E)) = .Ok .None ∧
    Option.transpose (.Some (.Ok v) : Option (Result T E)) = .Ok (.Some v) ∧
    Option.transpose (.Some (.Err e) : Option (Result T E)) = .Err e ∧
    Result.transpose (.Ok (.Some 5) : Result (Option Nat) E) = .Some (.Ok 5) ∧
    Result.transpose (.Ok .None : Result (Option T) E) = .None ∧
    Result.transpose (.Err e : Result (Option T) E) = .Some (.Err e) := by
  refine ⟨?_, rfl, rfl, rfl, rfl, rfl, rfl⟩
  rcases x with _ | (v | e) <;> rfl

/-- Claim C2.  Monad associativity of `andThen`: for every Option value `x`
and functions `f : T → Option U`, `g : U → Option V`,
`(x.andThen f).andThen g = x.andThen (fun v => (f v).andThen g)`;
the same law holds for every Result value with Result-returning functions. -/
theorem andThen_assoc {T U V E : Type} (x : Option T)
    (f : T → Option U) (g : U → Option V) (y : Result T E)
    (rf : T → Result U E) (rg : U → Result V E) :
    (x.andThen f).andThen g = x.andThen (fun v => (f v).andThen g) ∧
    (y.andThen rf).andThen rg = y.andThen (fun v => (rf v).andThen rg) := by
  constructor
  · cases x <;> rfl
  · cases y <;> rfl

/-- Claim C3.  Discriminator exhaustiveness and mutual exclusion: for every
Option value exactly one of `isSome` and `isNone` is true, and for every
Result value exactly one of `isOk` and `isErr` is true. -/
theorem discriminators_exclusive {T U E : Type} (x : Option T)
    (y : Result U E) :
    ((x.isSome = true ∧ x.isNone = false) ∨
      (x.isSome = false ∧ x.isNone = true)) ∧
    ((y.isOk = true ∧ y.isErr = false) ∨
      (y.isOk = false ∧ y.isErr = true)) := by
  constructor
  · cases x
    · exact Or.inr ⟨rfl, rfl⟩
    · exact Or.inl ⟨rfl, rfl⟩
  · cases y
    · exact Or.inl ⟨rfl, rfl⟩
    · exact Or.inr ⟨rfl, rfl⟩

/-- Claim C4.  Result's lazy fallbacks receive the error value:
`unwrapOrElse f` returns `v` on `Ok v` and `f e` on `Err e`, and
`mapOrElse defFn f` returns `f v` on `Ok v` and `defFn e` on `Err e` —
the fallback is applied to the contained error. -/
theorem result_lazy_fallbacks_receive_error {T E U : Type} (v : T) (e : E)
    (f : E → T) (defFn : E → U) (g : T → U) :
    Result.unwrapOrElse (.Ok v : Result T E) f = v ∧
    Result.unwrapOrElse (.Err e : Result T E) f = f e ∧
    Result.mapOrElse (.Ok v : Result T E) defFn g = g v ∧
    Result.mapOrElse (.Err e : Result T E) defFn g = defFn e :=
  ⟨rfl, rfl, rfl, rfl⟩

/-- Claim C5.  Laziness contract: when the receiver's variant makes the lazy
callback unnecessary, the result does not depend on the callback:
`(Some v).unwrapOrElse f = (Some v).unwrapOrElse g = v`,
`(Some v).orElse h = (Some v).orElse k = Some v`, and
`None.andThen p = None.andThen q = None` for all callbacks. -/
theorem laziness_contract {T U : Type} (v : T) (f g : Unit → T)
    (h k : Unit → Option T) (p q : T → Option U) :
    Option.unwrapOrElse (.Some v) f = Option.unwrapOrElse (.Some v) g ∧
    Option.unwrapOrElse (.Some v) f = v ∧
    Option.orElse (.Some v) h = Option.orElse (.Some v) k ∧
    Option.orElse (.Some v) h = .Some v ∧
    Option.andThen (.None : Option T) p = Option.andThen (.None : Option T) q ∧
    Option.andThen (.None : Option T) p = .None :=
  ⟨rfl, rfl, rfl, rfl, rfl, rfl⟩

/-- Claim C6.  Option-to-Result conversion: `okOr err` maps `Some v` to
`Ok v` and `None` to `Err err`; `okOrElse errFn` maps `Some v` to `Ok v` and
`None` to `Err (errFn ())`; the result is an `Err` exactly when the receiver
is `None`. -/
theorem okOr_conversion {T E : Type} (v : T) (e : E) (errFn : Unit → E)
    (x : Option T) :
    Option.okOr (.Some v) e = .Ok v ∧
    Option.okOr (.None : Option T) e = .Err e ∧
    Option.okOrElse (.Some v) errFn = .Ok v ∧
    Option.okOrElse (.None : Option T) errFn = .Err (errFn ()) ∧
    (x.okOr e).isErr = x.isNone ∧
    (x.okOrElse errFn).isErr = x.isNone := by
  refine ⟨rfl, rfl, rfl, rfl, ?_, ?_⟩ <;> cases x <;> rfl

/-- Claim C7.  Immutability of receivers: under the explicit-state
translation of a method call (receiver state in, receiver state and return
value out), every combinator of both types — the discriminators and the full
`OptionImpl` and `ResultImpl` combinator sets — leaves the receiver's variant
and payload unchanged for every Option or Result receiver, and its return
value is the pure combinator of the original receiver: the call has no
observable side effect on the receiver and yields a value determined by the
original receiver and the arguments alone. -/
theorem combinators_preserve_receiver {T U E F : Type} (x : Option T)
    (dT : T) (fT : Unit → T) (fm : T → U) (dU : U) (dFnU : Unit → U)
    (fU : T → U) (e : E) (errFn : Unit → E) (ou : Option U)
    (fo : T → Option U) (predicate : T → Bool) (ob : Option T)
    (obFn : Unit → Option T) (xt : Option (Result T E)) (xf : Option (Option T))
    (y : Result T E) (rop : E → T) (rdFnE : E → U) (rerrF : E → F)
    (ru : Result U E) (rft : T → Result U E) (rtf : Result T F)
    (rofE : E → Result T F) (yt : Result (Option T) E) :
    (x.isSomeCall.1 = x ∧ x.isSomeCall.2 = x.isSome) ∧
    (x.isNoneCall.1 = x ∧ x.isNoneCall.2 = x.isNone) ∧
    ((x.unwrapOrCall dT).1 = x ∧ (x.unwrapOrCall dT).2 = x.unwrapOr dT) ∧
    ((x.unwrapOrElseCall fT).1 = x ∧
      (x.unwrapOrElseCall fT).2 = x.unwrapOrElse fT) ∧
    ((x.mapCall fm).1 = x ∧ (x.mapCall fm).2 = x.map fm) ∧
    ((x.mapOrCall dU fU).1 = x ∧ (x.mapOrCall dU fU).2 = x.mapOr dU fU) ∧
    ((x.mapOrElseCall dFnU fU).1 = x ∧
      (x.mapOrElseCall dFnU fU).2 = x.mapOrElse dFnU fU) ∧
    ((x.okOrCall e).1 = x ∧ (x.okOrCall e).2 = x.okOr e) ∧
    ((x.okOrElseCall errFn).1 = x ∧
      (x.okOrElseCall errFn).2 = x.okOrElse errFn) ∧
    ((x.andCall ou).1 = x ∧ (x.andCall ou).2 = x.and ou) ∧
    ((x.andThenCall fo).1 = x ∧ (x.andThenCall fo).2 = x.andThen fo) ∧
    ((x.filterCall predicate).1 = x ∧
      (x.filterCall predicate).2 = x.filter predicate) ∧
    ((x.orCall ob).1 = x ∧ (x.orCall ob).2 = x.or ob) ∧
    ((x.orElseCall obFn).1 = x ∧ (x.orElseCall obFn).2 = x.orElse obFn) ∧
    ((x.xorCall ob).1 = x ∧ (x.xorCall ob).2 = x.xor ob) ∧
    ((x.zipCall ou).1 = x ∧ (x.zipCall ou).2 = x.zip ou) ∧
    (xt.transposeCall.1 = xt ∧ xt.transposeCall.2 = xt.transpose) ∧
    (xf.flattenCall.1 = xf ∧ xf.flattenCall.2 = xf.flatten) ∧
    (y.isOkCall.1 = y ∧ y.isOkCall.2 = y.isOk) ∧
    (y.isErrCall.1 = y ∧ y.isErrCall.2 = y.isErr) ∧
    (y.okCall.1 = y ∧ y.okCall.2 = y.ok) ∧
    (y.errCall.1 = y ∧ y.errCall.2 = y.err) ∧
    ((y.mapCall fm).1 = y ∧ (y.mapCall fm).2 = y.map fm) ∧
    ((y.mapOrCall dU fU).1 = y ∧ (y.mapOrCall dU fU).2 = y.mapOr dU fU) ∧
    ((y.mapOrElseCall rdFnE fU).1 = y ∧
      (y.mapOrElseCall rdFnE fU).2 = y.mapOrElse rdFnE fU) ∧
    ((y.mapErrCall rerrF).1 = y ∧ (y.mapErrCall rerrF).2 = y.mapErr rerrF) ∧
    ((y.andCall ru).1 = y ∧ (y.andCall ru).2 = y.and ru) ∧
    ((y.andThenCall rft).1 = y ∧ (y.andThenCall rft).2 = y.andThen rft) ∧
    ((y.orCall rtf).1 = y ∧ (y.orCall rtf).2 = y.or rtf) ∧
    ((y.orElseCall rofE).1 = y ∧ (y.orElseCall rofE).2 = y.orElse rofE) ∧
    ((y.unwrapOrCall dT).1 = y ∧ (y.unwrapOrCall dT).2 = y.unwrapOr dT) ∧
    ((y.unwrapOrElseCall rop).1 = y ∧
      (y.unwrapOrElseCall rop).2 = y.unwrapOrElse rop) ∧
    (yt.transposeCall.1 = yt ∧ yt.transposeCall.2 = yt.transpose) := by
  refine ⟨?_, ?_, ?_, ?_, ?_, ?_, ?_, ?_, ?_, ?_, ?_, ?_, ?_, ?_, ?_, ?_, ?_,
    ?_, ?_, ?_, ?_, ?_, ?_, ?_, ?_, ?_, ?_, ?_, ?_, ?_, ?_, ?_, ?_⟩ <;>
    first
      | (cases x <;> exact ⟨rfl, rfl⟩)
      | (cases x <;> cases ou <;> exact ⟨rfl, rfl⟩)
      | (cases x <;> cases ob <;>
          simp [Option.xorCall, Option.xor, Option.isSome, Option.isNone])
      | (cases y <;> exact ⟨rfl, rfl⟩)
      | (rcases xt with _ | (v | er) <;> exact ⟨rfl, rfl⟩)
      | (cases xf <;> exact ⟨rfl, rfl⟩)
      | (rcases yt with (_ | v) | er <;> exact ⟨rfl, rfl⟩)

/-- Claim C8.  `flatten` removes exactly one nesting level:
`Some (Some v) → Some v`, `Some None → None`, `None → None`; on the doubly
nested `Some (Some (Some 6))` one application gives `Some (Some 6)` and a
second application gives `Some 6`. -/
theorem flatten_one_level {T : Type} (v : T) :
    Option.flatten (.Some (.Some v)) = .Some v ∧
    Option.flatten (.Some (.None : Option T)) = .None ∧
    Option.flatten (.None : Option (Option T)) = .None ∧
    Option.flatten (.Some (.Some (.Some 6)) : Option (Option (Option Nat))) =
      .Some (.Some 6) ∧
    Option.flatten (Option.flatten
      (.Some (.Some (.Some 6)) : Option (Option (Option Nat)))) = .Some 6 :=
  ⟨rfl, rfl, rfl, rfl, rfl⟩

/-- Claim C9.  `xor` truth table: when exactly one of the two operands is
`Some`, that operand is returned; when both are `Some` or both are `None`
the result is `None`, independent of the payloads; in particular
`(Some 2).xor (Some 2) = None` and `(Some 2).xor None = Some 2`. -/
theorem xor_truth_table {T : Type} (v w : T) :
    Option.xor (.Some v) (.Some w) = .None ∧
    Option.xor (.Some v) (.None : Option T) = .Some v ∧
    Option.xor (.None : Option T) (.Some w) = .Some w ∧
    Option.xor (.None : Option T) (.None : Option T) = .None ∧
    Option.xor (.Some 2 : Option Nat) (.Some 2) = .None ∧
    Option.xor (.Some 2 : Option Nat) .None = .Some 2 := by
  refine ⟨?_, ?_, ?_, ?_, ?_, ?_⟩ <;> simp [Option.xor, Option.isSome,
    Option.isNone]

/-- Claim C10.  Implicit right-identity monad law: for every Option value
`x`, binding with the `Some` constructor is the identity:
`x.andThen (fun v => Some v) = x` on both variants. -/
theorem andThen_right_identity {T : Type} (x : Option T) :
    x.andThen (fun v => .Some v) = x := by
  cases x <;> rfl

end RusTs
